import Mathlib

/-!
Shallow embedding of the Solana Anchor tipping program
(`anchor_project/programs/tipping_program/src/lib.rs`).

The program has one account type, `TipAccount`, and three instructions:
`initialize_tip_account`, `send_tip`, `withdraw_tips`.  Public keys and
account addresses are modelled as natural numbers, lamport balances as
natural numbers that the host keeps below `2 ^ 64` (the runtime's balances
are `u64` with checked arithmetic), and `total_tips` as a natural number
kept below `2 ^ 64` by the program's own `checked_add`.

Host behaviour the embedding models explicitly:
- the system program's transfer rejects a source account that carries data;
  `withdraw_tips` transfers out of the tip account, which carries the
  49-byte `TipAccount` record, so that CPI can never succeed, while
  `send_tip` transfers out of the tipper's data-free wallet;
- Anchor's generated account validation evaluates the `seeds`/`bump`
  constraint of `WithdrawTips` before its `has_one`, so a signer whose
  derived address does not match the passed tip account's address fails
  with the `ConstraintSeeds` host error before the `has_one` equality is
  consulted;
- the deterministic address derivation (`find_program_address` over the
  fixed tag `"tip_account"` and a public key) is modelled by the injective
  function `derive_address`; determinism and collision-freedom in the key
  are the only properties used.

Each instruction is a function returning `Except ProgramError _`.  A result
of `.error e` models the host runtime aborting the whole invocation and
rolling back every effect (the runtime guarantees all effects of one
invocation persist or none do), so an error result carries no state.
-/

namespace TippingProgram

/-- A Solana public key or account address, modelled abstractly as a
natural number. -/
abbrev Pubkey := Nat

/-- `u64::MAX + 1`. -/
def U64_SIZE : Nat := 2 ^ 64

/-- The `TipAccount` account type from the source:
`recipient : Pubkey`, `total_tips : u64`, `bump : u8`. -/
structure TipAccount where
  recipient : Pubkey
  total_tips : Nat
  bump : Nat
  deriving DecidableEq, Repr

/-- The program's declared error codes (`TippingError` in the source). -/
inductive TippingError where
  | InvalidAmount
  | UnauthorizedWithdrawal
  | InsufficientFunds
  | Overflow
  deriving DecidableEq, Repr

/-- Errors an invocation can end with: an error raised by the program's own
code, or a host-originated failure — Anchor's `ConstraintSeeds` violation
from account validation, or a failure of the system program's transfer
(source account carries data, insufficient source balance, or overflow of
the destination's `u64` balance).  Host failures propagate untranslated. -/
inductive ProgramError where
  | program (e : TippingError)
  | hostConstraintSeeds
  | hostTransferFromCarriesData
  | hostInsufficientFunds
  | hostArithmeticOverflow
  deriving DecidableEq, Repr

/-- The host's deterministic address derivation for seeds
`["tip_account", key]` and a bump byte (`find_program_address` /
`create_program_address`, host code outside this repository).  Modelled as
an injective pairing of the key with the bump byte: the program relies only
on the derivation being deterministic and collision-free in the key. -/
def derive_address (key bump : Nat) : Pubkey :=
  256 * key + bump % 256

/-- `u64::checked_add` from the source's
`tip_account.total_tips.checked_add(amount)`. -/
def checked_add (a b : Nat) : Option Nat :=
  if a + b < U64_SIZE then some (a + b) else none

/-- The system program's lamport transfer invoked by both `send_tip` and
`withdraw_tips`: first rejects a source account that carries data
("Transfer: `from` must not carry data"), then fails if the source balance
cannot cover `amount` or the destination `u64` balance would overflow;
otherwise moves `amount` from source to destination.  Returns
(source after, destination after). -/
def transfer (fromCarriesData : Bool) (fromLamports toLamports amount : Nat) :
    Except ProgramError (Nat × Nat) :=
  if fromCarriesData then
    .error .hostTransferFromCarriesData
  else if fromLamports < amount then
    .error .hostInsufficientFunds
  else if toLamports + amount < U64_SIZE then
    .ok (fromLamports - amount, toLamports + amount)
  else
    .error .hostArithmeticOverflow

/-- `initialize_tip_account`: sets `recipient` to the recipient account's
key, zeroes `total_tips`, and stores the bump Anchor found when deriving
the address from seeds `["tip_account", recipient]` (`ctx.bumps.tip_account`,
passed here as `bumpFromDerivation`). -/
def initialize_tip_account (recipient : Pubkey) (bumpFromDerivation : Nat) :
    TipAccount :=
  { recipient := recipient, total_tips := 0, bump := bumpFromDerivation }

/-- The accounts a successful `send_tip` leaves behind. -/
structure SendResult where
  tipAccount : TipAccount
  tipLamports : Nat
  tipperLamports : Nat
  deriving DecidableEq, Repr

/-- `send_tip`: requires `amount > 0` (else `InvalidAmount`), transfers
`amount` lamports from the tipper's wallet (a system account without data)
to the tip account via the system program, then increments `total_tips`
with `checked_add` (else `Overflow`).  The transfer in the source happens
before the `checked_add`, so a transfer failure preempts the overflow
check; an overflow after the transfer aborts the invocation and the
runtime rolls the transfer back. -/
def send_tip (acct : TipAccount) (tipLamports tipperLamports amount : Nat) :
    Except ProgramError SendResult :=
  if amount > 0 then
    match transfer false tipperLamports tipLamports amount with
    | .error e => .error e
    | .ok (tipperAfter, tipAfter) =>
      match checked_add acct.total_tips amount with
      | none => .error (.program .Overflow)
      | some t =>
        .ok { tipAccount := { acct with total_tips := t },
              tipLamports := tipAfter,
              tipperLamports := tipperAfter }
  else
    .error (.program .InvalidAmount)

/-- The accounts a successful `withdraw_tips` would leave behind. -/
structure WithdrawResult where
  tipAccount : TipAccount
  tipLamports : Nat
  recipientLamports : Nat
  deriving DecidableEq, Repr

/-- `withdraw_tips`, including the Anchor account validation of the
`WithdrawTips` context, which runs before the handler body and checks its
constraints in Anchor's generated order: first the
`seeds = [b"tip_account", recipient.key()], bump = tip_account.bump`
constraint — the address derived from the *signing* `recipient` account's
key and the stored bump must equal the passed tip account's address, else
the `ConstraintSeeds` host error — then
`has_one = recipient @ TippingError::UnauthorizedWithdrawal`, requiring the
signer to equal the stored `recipient`.  The handler then requires
`amount > 0` (else `InvalidAmount`) and that the tip account's actual
lamport balance covers `amount` (else `InsufficientFunds`), and invokes the
system-program transfer out of the tip account — which carries the
`TipAccount` data and is therefore always rejected by the host.  The tip
account's data (`recipient`, `total_tips`, `bump`) is never written. -/
def withdraw_tips (tipAddress : Pubkey) (acct : TipAccount)
    (tipLamports : Nat) (signer : Pubkey) (signerLamports amount : Nat) :
    Except ProgramError WithdrawResult :=
  if derive_address signer acct.bump ≠ tipAddress then
    .error .hostConstraintSeeds
  else if acct.recipient ≠ signer then
    .error (.program .UnauthorizedWithdrawal)
  else if amount > 0 then
    if tipLamports ≥ amount then
      match transfer true tipLamports signerLamports amount with
      | .error e => .error e
      | .ok (tipAfter, signerAfter) =>
        .ok { tipAccount := acct,
              tipLamports := tipAfter,
              recipientLamports := signerAfter }
    else
      .error (.program .InsufficientFunds)
  else
    .error (.program .InvalidAmount)

/-- The persistent state attached to one tip account: its address, the
account data, and the lamports held at the address. -/
structure TipState where
  address : Pubkey
  account : TipAccount
  lamports : Nat
  deriving DecidableEq, Repr

/-- One invocation against a tip account: a `send_tip` by some tipper, or a
`withdraw_tips` attempt by some signer. -/
inductive Op where
  | send (tipperLamports amount : Nat)
  | withdraw (signer : Pubkey) (signerLamports amount : Nat)
  deriving DecidableEq, Repr

/-- Apply one invocation to the persistent state.  A failed invocation is
rolled back entirely by the runtime, leaving the state unchanged.  The
account's address never changes. -/
def step (s : TipState) : Op → TipState
  | .send tipperLamports amount =>
    match send_tip s.account s.lamports tipperLamports amount with
    | .ok r => ⟨s.address, r.tipAccount, r.tipLamports⟩
    | .error _ => s
  | .withdraw signer signerLamports amount =>
    match withdraw_tips s.address s.account s.lamports signer signerLamports
        amount with
    | .ok r => ⟨s.address, r.tipAccount, r.tipLamports⟩
    | .error _ => s

/-- Run a sequence of invocations against the persistent state. -/
def run (s : TipState) (ops : List Op) : TipState :=
  ops.foldl step s

instance {ε α : Type} [DecidableEq ε] [DecidableEq α] :
    DecidableEq (Except ε α) := fun a b =>
  match a, b with
  | .ok x, .ok y =>
    if h : x = y then .isTrue (by rw [h]) else .isFalse (by simp [h])
  | .error x, .error y =>
    if h : x = y then .isTrue (by rw [h]) else .isFalse (by simp [h])
  | .ok _, .error _ => .isFalse (by simp)
  | .error _, .ok _ => .isFalse (by simp)

/-- The derivation is collision-free in the key: different keys with the
same stored bump derive different addresses. -/
theorem derive_address_inj (k1 k2 b : Nat) (h : k1 ≠ k2) :
    derive_address k1 b ≠ derive_address k2 b := by
  show ¬ (256 * k1 + b % 256 = 256 * k2 + b % 256)
  omega

/-- Normal form of `send_tip`: the checks in the order the source performs
them (the `require!` on the amount, the system transfer's failure modes for
a data-free source, then the program's `checked_add`). -/
theorem send_tip_eq (acct : TipAccount) (tl tp amt : Nat) :
    send_tip acct tl tp amt =
      if amt = 0 then .error (.program .InvalidAmount)
      else if tp < amt then .error .hostInsufficientFunds
      else if U64_SIZE ≤ tl + amt then .error .hostArithmeticOverflow
      else if U64_SIZE ≤ acct.total_tips + amt then .error (.program .Overflow)
      else .ok { tipAccount := { acct with total_tips := acct.total_tips + amt },
                 tipLamports := tl + amt, tipperLamports := tp - amt } := by
  unfold send_tip transfer checked_add
  repeat' split
  all_goals (try split_ifs at *)
  all_goals simp_all
  all_goals omega

/-- Normal form of `withdraw_tips`: the seeds constraint, then `has_one`,
then the handler's checks in source order; the final system-program
transfer always fails because the tip account carries data, so no branch
succeeds. -/
theorem withdraw_tips_eq (addr : Pubkey) (acct : TipAccount) (tl : Nat)
    (signer : Pubkey) (sl amt : Nat) :
    withdraw_tips addr acct tl signer sl amt =
      if derive_address signer acct.bump ≠ addr then
        .error .hostConstraintSeeds
      else if acct.recipient ≠ signer then
        .error (.program .UnauthorizedWithdrawal)
      else if amt = 0 then .error (.program .InvalidAmount)
      else if tl < amt then .error (.program .InsufficientFunds)
      else .error .hostTransferFromCarriesData := by
  unfold withdraw_tips transfer
  repeat' split
  all_goals (try split_ifs at *)
  all_goals simp_all
  all_goals omega

/-- No `withdraw_tips` invocation ever returns a success: every path ends
in a program error or the host's rejection of the data-carrying source. -/
theorem withdraw_tips_never_ok (addr : Pubkey) (acct : TipAccount)
    (tl : Nat) (sg : Pubkey) (sl amt : Nat) (r : WithdrawResult) :
    withdraw_tips addr acct tl sg sl amt ≠ .ok r := by
  rw [withdraw_tips_eq]
  split_ifs <;> exact fun h => Except.noConfusion h

theorem step_send_def (s : TipState) (tp amt : Nat) :
    step s (Op.send tp amt) =
      match send_tip s.account s.lamports tp amt with
      | Except.ok r => (⟨s.address, r.tipAccount, r.tipLamports⟩ : TipState)
      | Except.error _ => s := rfl

theorem step_withdraw_def (s : TipState) (sg : Pubkey) (sl amt : Nat) :
    step s (Op.withdraw sg sl amt) =
      match withdraw_tips s.address s.account s.lamports sg sl amt with
      | Except.ok r => (⟨s.address, r.tipAccount, r.tipLamports⟩ : TipState)
      | Except.error _ => s := rfl

/-- One `send` invocation either fails and is rolled back, or adds its
positive amount to `total_tips` (staying below `2 ^ 64`) and to the held
lamports. -/
theorem step_send (s : TipState) (tp amt : Nat) :
    step s (Op.send tp amt) = s ∨
    (0 < amt ∧ amt ≤ tp ∧ s.account.total_tips + amt < U64_SIZE ∧
      step s (Op.send tp amt) =
        ⟨s.address, { s.account with total_tips := s.account.total_tips + amt },
          s.lamports + amt⟩) := by
  rw [step_send_def, send_tip_eq]
  split_ifs with h0 h1 h2 h3
  · exact Or.inl rfl
  · exact Or.inl rfl
  · exact Or.inl rfl
  · exact Or.inl rfl
  · exact Or.inr ⟨by omega, by omega, by omega, rfl⟩

/-- A `withdraw` invocation never changes the persistent state: every one
of its paths fails and is rolled back. -/
theorem step_withdraw_unchanged (s : TipState) (sg : Pubkey) (sl amt : Nat) :
    step s (Op.withdraw sg sl amt) = s := by
  rw [step_withdraw_def]
  cases hw : withdraw_tips s.address s.account s.lamports sg sl amt with
  | ok r => exact absurd hw (withdraw_tips_never_ok _ _ _ _ _ _ r)
  | error e => rfl

theorem step_total_le (s : TipState) (op : Op) :
    s.account.total_tips ≤ (step s op).account.total_tips := by
  cases op with
  | send tp amt =>
    rcases step_send s tp amt with h | ⟨_, _, _, h⟩ <;> rw [h]
    exact Nat.le_add_right _ _
  | withdraw sg sl amt => rw [step_withdraw_unchanged]

theorem step_total_lt (s : TipState) (op : Op)
    (h : s.account.total_tips < U64_SIZE) :
    (step s op).account.total_tips < U64_SIZE := by
  cases op with
  | send tp amt =>
    rcases step_send s tp amt with heq | ⟨_, _, hb, heq⟩ <;> rw [heq]
    · exact h
    · simpa using hb
  | withdraw sg sl amt =>
    rw [step_withdraw_unchanged]
    exact h

theorem step_lamports_le (s : TipState) (op : Op) :
    s.lamports ≤ (step s op).lamports := by
  cases op with
  | send tp amt =>
    rcases step_send s tp amt with h | ⟨_, _, _, h⟩ <;> rw [h]
    exact Nat.le_add_right _ _
  | withdraw sg sl amt => rw [step_withdraw_unchanged]

theorem run_cons (s : TipState) (op : Op) (ops : List Op) :
    run s (op :: ops) = run (step s op) ops := rfl

theorem run_total_le (s : TipState) (ops : List Op) :
    s.account.total_tips ≤ (run s ops).account.total_tips := by
  induction ops generalizing s with
  | nil => exact Nat.le_refl _
  | cons op ops ih =>
    rw [run_cons]
    exact Nat.le_trans (step_total_le s op) (ih (step s op))

theorem run_total_lt (s : TipState) (ops : List Op)
    (h : s.account.total_tips < U64_SIZE) :
    (run s ops).account.total_tips < U64_SIZE := by
  induction ops generalizing s with
  | nil => exact h
  | cons op ops ih =>
    rw [run_cons]
    exact ih (step s op) (step_total_lt s op h)

theorem run_lamports_le (s : TipState) (ops : List Op) :
    s.lamports ≤ (run s ops).lamports := by
  induction ops generalizing s with
  | nil => exact Nat.le_refl _
  | cons op ops ih =>
    rw [run_cons]
    exact Nat.le_trans (step_lamports_le s op) (ih (step s op))

example :
    send_tip ⟨5, 0, 255⟩ 10 100 30 =
      .ok ⟨⟨5, 30, 255⟩, 40, 70⟩ := by decide

example :
    withdraw_tips 1535 ⟨5, 100, 255⟩ 40 5 0 40 =
      .error .hostTransferFromCarriesData := by decide

example :
    withdraw_tips 1535 ⟨5, 100, 255⟩ 40 6 0 40 =
      .error .hostConstraintSeeds := by decide

/-- C1 counterexample: a genuine tip account (stored recipient `1`, bump
`255`) sits at its derived address `derive_address 1 255 = 511`.  A
withdrawal signed by `2` fails Anchor's seeds constraint — evaluated before
`has_one` — with the `ConstraintSeeds` host error, not with
`UnauthorizedWithdrawal` as the claim states. -/
theorem withdraw_wrong_signer_seeds_error_at_pda :
    derive_address 1 255 = 511 ∧
    withdraw_tips 511 ⟨1, 0, 255⟩ 50 2 0 10 = .error .hostConstraintSeeds ∧
    withdraw_tips 511 ⟨1, 0, 255⟩ 50 2 0 10 ≠
      .error (.program .UnauthorizedWithdrawal) := by decide

/-- C1 amended: for every tip account held at the address derived from its
stored recipient and bump (every account the program creates), a
`withdraw_tips` call whose signer differs from the stored recipient fails —
with the `ConstraintSeeds` host error, since the seeds constraint is
evaluated first and the wrong signer's derived address cannot match — and
changes no state; `UnauthorizedWithdrawal` is never reached. -/
theorem withdraw_wrong_signer_fails_constraint_seeds (s : TipState)
    (signer : Pubkey) (sl amt : Nat)
    (haddr : s.address = derive_address s.account.recipient s.account.bump)
    (h : s.account.recipient ≠ signer) :
    withdraw_tips s.address s.account s.lamports signer sl amt =
      .error .hostConstraintSeeds ∧
    step s (Op.withdraw signer sl amt) = s := by
  have hseeds : derive_address signer s.account.bump ≠ s.address := by
    rw [haddr]
    exact derive_address_inj signer s.account.recipient s.account.bump h.symm
  refine ⟨?_, step_withdraw_unchanged s signer sl amt⟩
  rw [withdraw_tips_eq, if_pos hseeds]

theorem withdraw_wrong_signer_fails_constraint_seeds_witness :
    withdraw_tips 511 (⟨1, 0, 255⟩ : TipAccount) 50 2 0 10 =
      .error .hostConstraintSeeds ∧
    step ⟨511, ⟨1, 0, 255⟩, 50⟩ (Op.withdraw 2 0 10) =
      ⟨511, ⟨1, 0, 255⟩, 50⟩ :=
  withdraw_wrong_signer_fails_constraint_seeds ⟨511, ⟨1, 0, 255⟩, 50⟩ 2 0 10
    (by decide) (by decide)

/-- C2: every successful `send_tip` increments `total_tips` by exactly its
(positive) amount, adds exactly `amount` lamports to the tip account's
balance, and removes exactly `amount` lamports from the tipper's balance. -/
theorem send_tip_success_deltas (acct : TipAccount) (tl tp amt : Nat)
    (r : SendResult) (h : send_tip acct tl tp amt = .ok r) :
    r.tipAccount.total_tips = acct.total_tips + amt ∧
    r.tipLamports = tl + amt ∧
    r.tipperLamports = tp - amt ∧ amt ≤ tp ∧ 0 < amt := by
  rw [send_tip_eq] at h
  split_ifs at h with h0 h1 h2 h3
  all_goals first
  | exact Except.noConfusion h
  | (injection h with h4; subst h4; exact ⟨rfl, rfl, rfl, by omega, by omega⟩)

theorem send_tip_success_deltas_witness :
    (⟨⟨5, 30, 255⟩, 40, 70⟩ : SendResult).tipAccount.total_tips =
      (⟨5, 0, 255⟩ : TipAccount).total_tips + 30 ∧
    (⟨⟨5, 30, 255⟩, 40, 70⟩ : SendResult).tipLamports = 10 + 30 ∧
    (⟨⟨5, 30, 255⟩, 40, 70⟩ : SendResult).tipperLamports = 100 - 30 ∧
    (30 : Nat) ≤ 100 ∧ (0 : Nat) < 30 :=
  send_tip_success_deltas ⟨5, 0, 255⟩ 10 100 30 ⟨⟨5, 30, 255⟩, 40, 70⟩
    (by decide)

/-- C3 counterexample: with `total_tips = 2 ^ 64 - 1`, adding `amount = 1`
leaves the `u64` range, yet when the tipper's balance is `0` the call fails
with the host transfer's insufficient-funds error, not `Overflow`: the
source performs the transfer before the `checked_add`, so the transfer
failure preempts the overflow check. -/
theorem send_overflow_preempted_by_transfer :
    U64_SIZE ≤ (⟨7, U64_SIZE - 1, 255⟩ : TipAccount).total_tips + 1 ∧
    send_tip ⟨7, U64_SIZE - 1, 255⟩ 0 0 1 = .error .hostInsufficientFunds ∧
    send_tip ⟨7, U64_SIZE - 1, 255⟩ 0 0 1 ≠
      .error (.program .Overflow) := by decide

/-- C3 amended: when the host transfer itself can succeed (the tipper's
balance covers `amount` and the destination balance stays within `u64`) and
`total_tips + amount` leaves the 64-bit range, `send_tip` fails with
`Overflow`, and the runtime rollback means no effect persists — the already
performed transfer included (`step` leaves the state unchanged). -/
theorem send_overflow_fails_overflow (s : TipState) (tp amt : Nat)
    (hcover : amt ≤ tp) (htl : s.lamports + amt < U64_SIZE)
    (hwf : s.account.total_tips < U64_SIZE)
    (hov : U64_SIZE ≤ s.account.total_tips + amt) :
    send_tip s.account s.lamports tp amt = .error (.program .Overflow) ∧
    step s (Op.send tp amt) = s := by
  have hs : send_tip s.account s.lamports tp amt =
      .error (.program .Overflow) := by
    rw [send_tip_eq, if_neg (by omega), if_neg (by omega), if_neg (by omega),
      if_pos hov]
  exact ⟨hs, by rw [step_send_def, hs]⟩

theorem send_overflow_fails_overflow_witness :
    send_tip ⟨7, U64_SIZE - 1, 255⟩ 0 5 1 = .error (.program .Overflow) ∧
    step ⟨2047, ⟨7, U64_SIZE - 1, 255⟩, 0⟩ (Op.send 5 1) =
      ⟨2047, ⟨7, U64_SIZE - 1, 255⟩, 0⟩ :=
  send_overflow_fails_overflow ⟨2047, ⟨7, U64_SIZE - 1, 255⟩, 0⟩ 5 1
    (by decide) (by decide) (by decide) (by decide)

/-- C4: a withdrawal by the stored recipient (against the account at its
derived address, so that account validation passes) with a positive amount
that exceeds the account's actual held lamports fails with
`InsufficientFunds` and changes no state.  The check reads the account's
lamport balance, not the `total_tips` counter (the witness has `total_tips`
far above the amount). -/
theorem withdraw_insufficient_funds (s : TipState) (sl amt : Nat)
    (hpos : 0 < amt) (hgt : s.lamports < amt) :
    withdraw_tips (derive_address s.account.recipient s.account.bump)
      s.account s.lamports s.account.recipient sl amt =
      .error (.program .InsufficientFunds) ∧
    step s (Op.withdraw s.account.recipient sl amt) = s := by
  have hw : withdraw_tips (derive_address s.account.recipient s.account.bump)
      s.account s.lamports s.account.recipient sl amt =
      .error (.program .InsufficientFunds) := by
    rw [withdraw_tips_eq, if_neg (by simp), if_neg (by simp),
      if_neg (by omega), if_pos hgt]
  exact ⟨hw, step_withdraw_unchanged s s.account.recipient sl amt⟩

theorem withdraw_insufficient_funds_witness :
    withdraw_tips 2047 (⟨7, 1000, 255⟩ : TipAccount) 10 7 0 50 =
      .error (.program .InsufficientFunds) ∧
    step ⟨2047, ⟨7, 1000, 255⟩, 10⟩ (Op.withdraw 7 0 50) =
      ⟨2047, ⟨7, 1000, 255⟩, 10⟩ :=
  withdraw_insufficient_funds ⟨2047, ⟨7, 1000, 255⟩, 10⟩ 0 50 (by decide)
    (by decide)

/-- C5: amount `0` is rejected with `InvalidAmount` by `send_tip` and — when
signed by the stored recipient against the account at its derived address —
by `withdraw_tips`, with no state change in either case. -/
theorem zero_amount_invalid (s : TipState) (tp sl : Nat) :
    send_tip s.account s.lamports tp 0 = .error (.program .InvalidAmount) ∧
    withdraw_tips (derive_address s.account.recipient s.account.bump)
      s.account s.lamports s.account.recipient sl 0 =
      .error (.program .InvalidAmount) ∧
    step s (Op.send tp 0) = s ∧
    step s (Op.withdraw s.account.recipient sl 0) = s := by
  have hs : send_tip s.account s.lamports tp 0 =
      .error (.program .InvalidAmount) := by
    rw [send_tip_eq, if_pos rfl]
  have hw : withdraw_tips (derive_address s.account.recipient s.account.bump)
      s.account s.lamports s.account.recipient sl 0 =
      .error (.program .InvalidAmount) := by
    rw [withdraw_tips_eq, if_neg (by simp), if_neg (by simp), if_pos rfl]
  exact ⟨hs, hw, by rw [step_send_def, hs],
    step_withdraw_unchanged s s.account.recipient sl 0⟩

/-- C6: across every sequence of invocations starting from a state whose
counter is a valid `u64`, `total_tips` is monotonically non-decreasing and
never leaves the 64-bit range; a withdraw step never changes it, and a send
step either leaves it unchanged (the invocation failed and was rolled back)
or increases it by exactly that call's positive amount. -/
theorem total_tips_monotone (s : TipState)
    (hwf : s.account.total_tips < U64_SIZE) (ops : List Op) :
    s.account.total_tips ≤ (run s ops).account.total_tips ∧
    (run s ops).account.total_tips < U64_SIZE ∧
    (∀ sg sl amt,
      (step (run s ops) (Op.withdraw sg sl amt)).account.total_tips =
        (run s ops).account.total_tips) ∧
    (∀ tp amt,
      (step (run s ops) (Op.send tp amt)).account.total_tips =
          (run s ops).account.total_tips ∨
        (0 < amt ∧
          (step (run s ops) (Op.send tp amt)).account.total_tips =
            (run s ops).account.total_tips + amt)) := by
  refine ⟨run_total_le s ops, run_total_lt s ops hwf, ?_, ?_⟩
  · intro sg sl amt
    rw [step_withdraw_unchanged]
  · intro tp amt
    rcases step_send (run s ops) tp amt with h | ⟨h1, _, _, h⟩
    · exact Or.inl (by rw [h])
    · exact Or.inr ⟨h1, by rw [h]⟩

theorem total_tips_monotone_witness :
    (⟨1535, ⟨5, 0, 255⟩, 10⟩ : TipState).account.total_tips ≤
      (run ⟨1535, ⟨5, 0, 255⟩, 10⟩
        [Op.send 100 30, Op.withdraw 5 0 20]).account.total_tips :=
  (total_tips_monotone ⟨1535, ⟨5, 0, 255⟩, 10⟩ (by decide)
    [Op.send 100 30, Op.withdraw 5 0 20]).1

/-- C7: no send or withdraw invocation, succeeding or failing, ever changes
the stored `recipient` or `bump`: they are written only by
`initialize_tip_account`. -/
theorem recipient_bump_immutable (s : TipState) (op : Op) :
    (step s op).account.recipient = s.account.recipient ∧
    (step s op).account.bump = s.account.bump := by
  cases op with
  | send tp amt =>
    rcases step_send s tp amt with h | ⟨_, _, _, h⟩ <;>
      (rw [h]; exact ⟨rfl, rfl⟩)
  | withdraw sg sl amt =>
    rw [step_withdraw_unchanged]
    exact ⟨rfl, rfl⟩

/-- C8: `initialize_tip_account` sets `recipient` to the given recipient's
key, `total_tips` to zero, and `bump` to the derivation discriminant that
the host's address derivation from seeds `["tip_account", recipient]`
produced for that recipient (Anchor's `ctx.bumps.tip_account`, modelled as
an arbitrary derivation function `derive`). -/
theorem initialize_sets_fields (derive : Pubkey → Nat) (r : Pubkey) :
    (initialize_tip_account r (derive r)).recipient = r ∧
    (initialize_tip_account r (derive r)).total_tips = 0 ∧
    (initialize_tip_account r (derive r)).bump = derive r :=
  ⟨rfl, rfl, rfl⟩

/-- C9: the tip account's held balance never decreases below any floor it
starts at — in particular, a balance funded to the host's rent-exempt
minimum at initialization stays at or above that minimum across every
sequence of operations.  Sends only add lamports, and no `withdraw_tips`
call ever succeeds (its system-program transfer sources from the
data-carrying `TipAccount`, which the host rejects), so no successful
withdrawal can leave the balance below the minimum. -/
theorem balance_never_below_rent_minimum (rentMin : Nat) (s : TipState)
    (ops : List Op) (hfunded : rentMin ≤ s.lamports) :
    rentMin ≤ (run s ops).lamports ∧
    ∀ (addr : Pubkey) (acct : TipAccount) (tl : Nat) (sg : Pubkey)
      (sl amt : Nat) (r : WithdrawResult),
      withdraw_tips addr acct tl sg sl amt ≠ .ok r :=
  ⟨Nat.le_trans hfunded (run_lamports_le s ops),
    fun addr acct tl sg sl amt r =>
      withdraw_tips_never_ok addr acct tl sg sl amt r⟩

theorem balance_never_below_rent_minimum_witness :
    (1 : Nat) ≤ (run ⟨511, ⟨1, 0, 255⟩, 5⟩
      [Op.send 100 30, Op.withdraw 1 0 20]).lamports :=
  (balance_never_below_rent_minimum 1 ⟨511, ⟨1, 0, 255⟩, 5⟩
    [Op.send 100 30, Op.withdraw 1 0 20] (by decide)).1

/-- C10 counterexample: amount `0`, wrong signer, genuine account at its
derived address: the result is the `ConstraintSeeds` host error — account
validation indeed runs before the handler, and `InvalidAmount` is not
returned — but the result is not `UnauthorizedWithdrawal` as the claim
asserts. -/
theorem withdraw_wrong_signer_zero_amount_seeds_error :
    withdraw_tips 511 ⟨1, 0, 255⟩ 50 2 0 0 = .error .hostConstraintSeeds ∧
    withdraw_tips 511 ⟨1, 0, 255⟩ 50 2 0 0 ≠
      .error (.program .UnauthorizedWithdrawal) ∧
    withdraw_tips 511 ⟨1, 0, 255⟩ 50 2 0 0 ≠
      .error (.program .InvalidAmount) := by decide

/-- C10 amended: the `WithdrawTips` account constraints are evaluated
before the handler's amount and balance checks: every call whose signer is
not the stored recipient fails during account validation — with the
`ConstraintSeeds` host error when the signer's derived address does not
match the account (the case for every account at its stored recipient's
derived address), and with `UnauthorizedWithdrawal` in the residual
address-matching case — and for every amount, including `0` and amounts
above the balance, `InvalidAmount` and `InsufficientFunds` are not
returned. -/
theorem withdraw_validation_precedes_handler (addr : Pubkey)
    (acct : TipAccount) (tl : Nat) (signer : Pubkey) (sl amt : Nat)
    (h : acct.recipient ≠ signer) :
    (withdraw_tips addr acct tl signer sl amt =
        .error .hostConstraintSeeds ∨
      withdraw_tips addr acct tl signer sl amt =
        .error (.program .UnauthorizedWithdrawal)) ∧
    withdraw_tips addr acct tl signer sl amt ≠
      .error (.program .InvalidAmount) ∧
    withdraw_tips addr acct tl signer sl amt ≠
      .error (.program .InsufficientFunds) := by
  rw [withdraw_tips_eq]
  by_cases hs : derive_address signer acct.bump ≠ addr
  · rw [if_pos hs]
    exact ⟨Or.inl rfl, by decide, by decide⟩
  · rw [if_neg hs, if_pos h]
    exact ⟨Or.inr rfl, by decide, by decide⟩

theorem withdraw_validation_precedes_handler_witness :
    (withdraw_tips 511 (⟨1, 0, 255⟩ : TipAccount) 50 2 0 0 =
        .error .hostConstraintSeeds ∨
      withdraw_tips 511 (⟨1, 0, 255⟩ : TipAccount) 50 2 0 0 =
        .error (.program .UnauthorizedWithdrawal)) ∧
    withdraw_tips 511 (⟨1, 0, 255⟩ : TipAccount) 50 2 0 0 ≠
      .error (.program .InvalidAmount) ∧
    withdraw_tips 511 (⟨1, 0, 255⟩ : TipAccount) 50 2 0 0 ≠
      .error (.program .InsufficientFunds) :=
  withdraw_validation_precedes_handler 511 ⟨1, 0, 255⟩ 50 2 0 0 (by decide)

end TippingProgram
